import Mathlib

/-
Shallow embedding of the lib_bi export-consolidate-upload pipeline core:
file_handler.py (Consolidator), gcp_bq_handler.py (ErrorSinkExecutor and
ExportFanOut) and sftp_handler.py (UploadFanOut).

File and table names are modelled as lists of characters; Python string
containment (the in operator) is the contiguous-substring test isSubstr.
External collaborators (polars merge, subprocess commands, the warehouse
client, the sftp session) are oracles supplied in environment records;
their side effects on the modelled file-system state follow the commands
the source issues.
-/

namespace LibBi

abbrev FName := List Char

/-- Contiguous-substring test: embedding of the Python expression pat in s
for strings. -/
def isSubstr : FName → FName → Bool
  | pat, [] => pat.isEmpty
  | pat, c :: rest => pat.isPrefixOf (c :: rest) || isSubstr pat rest

/-- Output-name template with one table_name placeholder: the source calls
conca_csv_name.format(table_name=table_name). -/
structure Template where
  pre : FName
  post : FName
deriving DecidableEq

def Template.fill (t : Template) (table : FName) : FName :=
  t.pre ++ table ++ t.post

/-- Python exceptions observable in file_handler: run_command raises a bare
Exception (no arguments), the polars merge raises an error carrying a
message. -/
inductive PyErr where
  | bare : PyErr
  | mergeErr : FName → PyErr
deriving DecidableEq

/-- Python str of the exception: str(Exception()) is the empty string. -/
def errText : PyErr → FName
  | PyErr.bare => []
  | PyErr.mergeErr m => m

/-- The modelled working directory (bare file names in output_folder) plus
the log stream written through logging.error / logging.info. -/
structure FState where
  files : List FName
  log : List FName
deriving DecidableEq

/-- External collaborators of file_handler: the polars scan+sink (returns an
error message when it fails, given the scanned paths) and the exit code
subprocess.run reports for a given shell command string. -/
structure FEnv where
  mergeFails : List FName → Option FName
  runExit : FName → Nat

def pjoin (folder n : FName) : FName :=
  folder ++ "/".toList ++ n

/-- Selection predicate of file_handler.py lines 20-26, in source order:
".csv.gz" not in csv_name and ".csv" not in csv_name and table_name in
csv_name. -/
def selectsInput (table n : FName) : Bool :=
  !(isSubstr ".csv.gz".toList n) && !(isSubstr ".csv".toList n)
    && isSubstr table n

/-- The csv_file_path list comprehension restricted to bare names. -/
def selectedInputs (table : FName) (files : List FName) : List FName :=
  files.filter (fun n => selectsInput table n)

/-- Modelled from the claim wording for comparison with the source: select
names that contain table_name and do not END in a finished-artifact suffix
(".csv" or ".csv.gz"). The source tests substring containment instead. -/
def specSelectsInput (table n : FName) : Bool :=
  isSubstr table n && !(List.isSuffixOf ".csv".toList n)
    && !(List.isSuffixOf ".csv.gz".toList n)

/-- Amended selection predicate: contains table_name and does not contain
".csv" anywhere in the name (which also excludes every name containing
".csv.gz"). -/
def amendedSelectsInput (table n : FName) : Bool :=
  isSubstr table n && !(isSubstr ".csv".toList n)

/-- run_command of file_handler.py lines 8-12: run the shell command, and on
a non-zero exit code log message_error and raise a bare Exception. -/
def run_command (env : FEnv) (command message_error : FName) (st : FState) :
    FState × Option PyErr :=
  if env.runExit command = 0 then (st, none)
  else ({ st with log := st.log ++ [message_error] }, some PyErr.bare)

def commandToCompress (csvPath : FName) : FName :=
  "gzip --fast ".toList ++ csvPath

def commandToDelete (folder table : FName) : FName :=
  "rm -fr ".toList ++ folder ++ "/*".toList ++ table ++ "*.parquet".toList

/-- Shell glob semantics of the deletion pattern *table*.parquet inside
output_folder: the name ends in ".parquet" and table occurs before that
suffix. -/
def deleteMatch (table n : FName) : Bool :=
  List.isSuffixOf ".parquet".toList n && isSubstr table (n.take (n.length - 8))

/-- sink_csv creates (or overwrites) the output file name. -/
def insertFile (n : FName) (files : List FName) : List FName :=
  if n ∈ files then files else files ++ [n]

/-- Effect of a successful gzip --fast on the merged csv: the file is
replaced by its .gz sibling. -/
def gzipEffect (n : FName) (files : List FName) : List FName :=
  (files.filter (fun m => m ≠ n)) ++ [n ++ ".gz".toList]

def mergeFailMsg (table msg : FName) : FName :=
  "Failed to concatenate csv for table ".toList ++ table ++ ": ".toList ++ msg

def compressFailMsg (csvPath : FName) : FName :=
  "Failed to compress the csv: ".toList ++ csvPath

def deleteFailMsg (table : FName) : FName :=
  "Failed to delete all the csvs for the table: ".toList ++ table ++ " ".toList

/-- One iteration of the loop body of concat_parquet_to_csv_gzip
(file_handler.py lines 18-57) for a single table_name: select inputs, merge
via polars (logged and re-raised on failure), compress via run_command,
then delete the matching parquet files via run_command. Effects of the
shell commands are applied when their exit code is zero. -/
def consolidateTable (env : FEnv) (folder : FName) (tmpl : Template)
    (table : FName) (st : FState) : FState × Option PyErr :=
  let selected := selectedInputs table st.files
  let paths := selected.map (fun n => pjoin folder n)
  let outName := tmpl.fill table
  let outPath := pjoin folder outName
  match env.mergeFails paths with
  | some msg =>
      ({ st with log := st.log ++ [mergeFailMsg table msg] },
       some (PyErr.mergeErr msg))
  | none =>
      let st1 : FState := { st with files := insertFile outName st.files }
      match run_command env (commandToCompress outPath) (compressFailMsg outPath) st1 with
      | (st2, some e) => (st2, some e)
      | (st2, none) =>
          let st3 : FState := { st2 with files := gzipEffect outName st2.files }
          match run_command env (commandToDelete folder table) (deleteFailMsg table) st3 with
          | (st4, some e) => (st4, some e)
          | (st4, none) =>
              ({ st4 with files := st4.files.filter (fun n => !(deleteMatch table n)) },
               none)

/-- concat_parquet_to_csv_gzip iterates consolidateTable over
part_tables_name sequentially; the first raised error aborts the loop and
propagates. -/
def concat_parquet_to_csv_gzip (env : FEnv) (folder : FName) (tmpl : Template) :
    List FName → FState → FState × Option PyErr
  | [], st => (st, none)
  | table :: rest, st =>
      match consolidateTable env folder tmpl table st with
      | (st1, some e) => (st1, some e)
      | (st1, none) => concat_parquet_to_csv_gzip env folder tmpl rest st1

/-
gcp_bq_handler.py: execute_query, execute_query_log_errs (the error-sink
executor), export_table_to_storage and load_to_gcs_in_parallel (the export
fan-out). Query results are opaque handles (Nat); errors carry their
stringified message.
-/

/-- Values stored in the extra_columns_to_insert dict: caller-supplied
opaque values, the stringified error, and the captured datetime. -/
inductive Val where
  | str : FName → Val
  | time : Nat → Val
  | other : Nat → Val
deriving DecidableEq

instance : Inhabited Val := ⟨Val.other 0⟩

abbrev Dict := List (FName × Val)

/-- Python dict item assignment d[k] = v: replace in place when the key is
present (insertion order kept), append otherwise. -/
def dictSet (d : Dict) (k : FName) (v : Val) : Dict :=
  if d.any (fun kv => decide (kv.1 = k)) then
    d.map (fun kv => if kv.1 = k then (k, v) else kv)
  else d ++ [(k, v)]

def dictGet (d : Dict) (k : FName) : Option Val :=
  (d.find? (fun kv => decide (kv.1 = k))).map Prod.snd

/-- External collaborators of the BigQuery handler: the outcome of running
a query (result handle or stringified error), whether insert_rows_json
raises given the row it is handed, and the wall clock read by
datetime.now(). -/
structure BqEnv where
  query : FName → Except FName Nat
  insertRaises : Dict → Option FName
  now : Nat

/-- Log stream plus the rows appended to the error-sink table. -/
structure BqState where
  log : List FName
  sinkRows : List Dict
deriving DecidableEq

/-- What execute_query_log_errs ultimately raises: the original query
failure re-raised at line 104, or an exception escaping from
insert_rows_json at line 102. -/
inductive Raised where
  | queryErr : FName → Raised
  | insertErr : FName → Raised
deriving DecidableEq

def execErrMsg (sql e : FName) : FName :=
  "Executing query: ".toList ++ sql ++ "\n The error is: ".toList ++ e

/-- execute_query (gcp_bq_handler.py lines 19-33): run the query; on
failure log the query and the error, then re-raise the same error. -/
def execute_query (env : BqEnv) (sql : FName) (st : BqState) :
    BqState × Except FName Nat :=
  match env.query sql with
  | Except.ok r => (st, Except.ok r)
  | Except.error e =>
      ({ st with log := st.log ++ [execErrMsg sql e] }, Except.error e)

/-- Result of a call to execute_query_log_errs: final handler state, the
caller-visible extra_columns_to_insert dict (mutated in place by the
source), the Python return value, and what was raised, if anything. -/
structure LogErrsResult where
  state : BqState
  extra : Dict
  ret : Option Nat
  raised : Option Raised
deriving DecidableEq

/-- execute_query_log_errs (gcp_bq_handler.py lines 51-104): run the query;
on success fall through and return None. On failure, write the stringified
error and datetime.now() into extra_columns_to_insert, call
insert_rows_json on the augmented dict (no try/except around it: if it
raises, that exception propagates and line 104 is never reached), then
re-raise the original error. -/
def execute_query_log_errs (env : BqEnv) (sql : FName) (extra : Dict)
    (colErr colTime : FName) (st : BqState) : LogErrsResult :=
  match execute_query env sql st with
  | (st1, Except.ok _) => ⟨st1, extra, none, none⟩
  | (st1, Except.error e) =>
      let extra1 := dictSet extra colErr (Val.str e)
      let extra2 := dictSet extra1 colTime (Val.time env.now)
      match env.insertRaises extra2 with
      | some ie => ⟨st1, extra2, none, some (Raised.insertErr ie)⟩
      | none =>
          ⟨{ st1 with sinkRows := st1.sinkRows ++ [extra2] }, extra2, none,
           some (Raised.queryErr e)⟩

/-- External collaborator of the export fan-out: the outcome of one
extract_table call, keyed by project, dataset, table and destination uri. -/
structure ExpEnv where
  extract : FName → FName → FName → FName → Except FName Nat

def exportErrMsg (tbl uri e : FName) : FName :=
  "Failed to export table ".toList ++ tbl ++ " to ".toList ++ uri
    ++ ": ".toList ++ e

/-- export_table_to_storage (gcp_bq_handler.py lines 106-157): start the
extract job and wait for it; on failure log and re-raise. -/
def export_table_to_storage (env : ExpEnv) (proj ds tbl uri : FName)
    (log : List FName) : List FName × Except FName Nat :=
  match env.extract proj ds tbl uri with
  | Except.ok r => (log, Except.ok r)
  | Except.error e => (log ++ [exportErrMsg tbl uri e], Except.error e)

deriving instance DecidableEq for Except

/-- One completed pooled task of load_to_gcs_in_parallel. -/
structure TaskRecord where
  table : FName
  uri : FName
  outcome : Except FName Nat
deriving DecidableEq

/-- load_to_gcs_in_parallel (gcp_bq_handler.py lines 227-243):
ThreadPoolExecutor.map submits one export_table_to_storage task per table
name eagerly; the with block waits for every submitted task; exceptions
raised inside tasks are captured in their futures and never re-raised
(the map iterator is not consumed). The model returns the record of every
completed task. -/
def load_to_gcs_in_parallel (env : ExpEnv) (tables : List FName)
    (uriTmpl : Template) (proj ds : FName) : List TaskRecord :=
  tables.map (fun t =>
    ⟨t, uriTmpl.fill t,
     (export_table_to_storage env proj ds t (uriTmpl.fill t) []).2⟩)

/-
sftp_handler.py: upload_files and upload_all_files_in_parallel (the upload
fan-out).
-/

/-- External collaborators of the sftp handler: os.path.isfile on a full
local path, and whether conn.put raises for that path. -/
structure SftpEnv where
  isFile : FName → Bool
  putRaises : FName → Option FName

/-- Observable behaviour of one upload_files call: the paths passed to
conn.put, the log lines written, and what was raised, if anything. -/
structure UploadOutcome where
  putAttempts : List FName
  log : List FName
  raised : Option FName
deriving DecidableEq

/-- upload_files (sftp_handler.py lines 12-23): join the path; only when
os.path.isfile holds, call conn.put, logging success, or logging and
re-raising the failure. A non-file entry does nothing at all. -/
def upload_files (env : SftpEnv) (folder fname : FName) : UploadOutcome :=
  let p := pjoin folder fname
  if env.isFile p then
    match env.putRaises p with
    | none => ⟨[p], ["Uploaded: ".toList ++ fname], none⟩
    | some e => ⟨[p], ["Couldnt upload: ".toList ++ fname], some e⟩
  else ⟨[], [], none⟩

/-- upload_all_files_in_parallel (sftp_handler.py lines 25-39): map
upload_files over the whole os.listdir listing in a thread pool; per-task
exceptions are captured in unconsumed futures; the with block waits for
all tasks. The model returns every completed task outcome in listing
order. -/
def upload_all_files_in_parallel (env : SftpEnv) (folder : FName)
    (listing : List FName) : List UploadOutcome :=
  listing.map (fun fname => upload_files env folder fname)

/- Helper lemmas. -/

theorem isSubstr_of_prefix {p1 p2 s : FName} (hp : p1 <+: p2)
    (hs : isSubstr p2 s = true) : isSubstr p1 s = true := by
  induction s with
  | nil =>
      simp only [isSubstr] at hs
      have h2 : p2 = [] := List.isEmpty_iff.mp hs
      subst h2
      have h1 : p1 = [] := List.prefix_nil.mp hp
      subst h1
      rfl
  | cons c rest ih =>
      simp only [isSubstr, Bool.or_eq_true] at hs ⊢
      rcases hs with h | h
      · exact Or.inl (List.isPrefixOf_iff_prefix.mpr
          (hp.trans (List.isPrefixOf_iff_prefix.mp h)))
      · exact Or.inr (ih h)

theorem csv_substr_of_csvgz_substr {n : FName}
    (h : isSubstr ".csv.gz".toList n = true) : isSubstr ".csv".toList n = true :=
  isSubstr_of_prefix (List.isPrefixOf_iff_prefix.mp (by decide)) h

theorem mem_insertFile {n : FName} (m : FName) {files : List FName}
    (h : n ∈ files) : n ∈ insertFile m files := by
  unfold insertFile
  split
  · exact h
  · exact List.mem_append_left _ h

theorem mem_gzipEffect {n m : FName} {files : List FName}
    (hne : n ≠ m) (h : n ∈ files) : n ∈ gzipEffect m files := by
  unfold gzipEffect
  exact List.mem_append_left _ (List.mem_filter.mpr ⟨h, by simpa using hne⟩)

theorem dictGet_map_set_same (d : Dict) (k : FName) (v : Val)
    (h : d.any (fun kv => decide (kv.1 = k)) = true) :
    dictGet (d.map (fun kv => if kv.1 = k then (k, v) else kv)) k = some v := by
  induction d with
  | nil => simp at h
  | cons kv rest ih =>
      by_cases hk : kv.1 = k
      · simp [dictGet, hk]
      · simp only [List.any_cons, Bool.or_eq_true, decide_eq_true_eq] at h
        rcases h with h | h
        · exact absurd h hk
        · simpa [dictGet, hk] using ih h

theorem dictGet_append_single_same (d : Dict) (k : FName) (v : Val)
    (h : d.any (fun kv => decide (kv.1 = k)) = false) :
    dictGet (d ++ [(k, v)]) k = some v := by
  induction d with
  | nil => simp [dictGet]
  | cons kv rest ih =>
      simp only [List.any_cons, Bool.or_eq_false_iff, decide_eq_false_iff_not] at h
      have ih2 := ih (by
        simp only [List.any_eq_false, decide_eq_true_eq]
        intro x hx
        have := (List.any_eq_false.mp h.2)
        simpa using this x hx)
      simpa [dictGet, h.1] using ih2

theorem dictGet_dictSet_same (d : Dict) (k : FName) (v : Val) :
    dictGet (dictSet d k v) k = some v := by
  unfold dictSet
  by_cases h : d.any (fun kv => decide (kv.1 = k)) = true
  · simpa [h] using dictGet_map_set_same d k v h
  · have hf : d.any (fun kv => decide (kv.1 = k)) = false :=
      Bool.eq_false_iff.mpr h
    simpa [hf] using dictGet_append_single_same d k v hf

theorem dictGet_map_set_other (d : Dict) (k k2 : FName) (v : Val)
    (hne : k2 ≠ k) :
    dictGet (d.map (fun kv => if kv.1 = k then (k, v) else kv)) k2
      = dictGet d k2 := by
  induction d with
  | nil => rfl
  | cons kv rest ih =>
      by_cases hk : kv.1 = k
      · have h1 : ¬ k = k2 := fun hx => hne hx.symm
        have h2 : ¬ kv.1 = k2 := by
          rw [hk]
          exact h1
        simpa [dictGet, hk, h1, h2] using ih
      · by_cases h2 : kv.1 = k2
        · simp [dictGet, hk, h2, hne]
        · simpa [dictGet, hk, h2] using ih

theorem dictGet_append_single_other (d : Dict) (k k2 : FName) (v : Val)
    (hne : k2 ≠ k) : dictGet (d ++ [(k, v)]) k2 = dictGet d k2 := by
  unfold dictGet
  rw [List.find?_append]
  have hnone : ([(k, v)].find? (fun kv => decide (kv.1 = k2))) = none := by
    have h1 : ¬ k = k2 := fun hx => hne hx.symm
    simp [h1]
  rw [hnone, Option.or_none]

theorem dictGet_dictSet_other (d : Dict) (k k2 : FName) (v : Val)
    (hne : k2 ≠ k) : dictGet (dictSet d k v) k2 = dictGet d k2 := by
  unfold dictSet
  by_cases h : d.any (fun kv => decide (kv.1 = k)) = true
  · simpa [h] using dictGet_map_set_other d k k2 v hne
  · have hf : d.any (fun kv => decide (kv.1 = k)) = false :=
      Bool.eq_false_iff.mpr h
    simpa [hf] using dictGet_append_single_other d k k2 v hne

theorem selectsInput_eq_amended (table n : FName) :
    selectsInput table n = amendedSelectsInput table n := by
  unfold selectsInput amendedSelectsInput
  cases hcsv : isSubstr ".csv".toList n with
  | true =>
      simp only [hcsv, Bool.not_true, Bool.and_false, Bool.false_and]
  | false =>
      have hgz : isSubstr ".csv.gz".toList n = false := by
        cases hg : isSubstr ".csv.gz".toList n
        · rfl
        · rw [csv_substr_of_csvgz_substr hg] at hcsv
          exact absurd hcsv (by simp)
      simp only [hcsv, hgz, Bool.not_false, Bool.and_true, Bool.true_and]

theorem parquet_not_suffix_gz (x : FName) :
    List.isSuffixOf ".parquet".toList (x ++ ".gz".toList) = false := by
  cases hs : List.isSuffixOf ".parquet".toList (x ++ ".gz".toList)
  · rfl
  · exfalso
    have h1 : ".parquet".toList <:+ x ++ ".gz".toList :=
      List.isSuffixOf_iff_suffix.mp hs
    have h2 : ".gz".toList <:+ x ++ ".gz".toList := List.suffix_append x _
    rcases List.suffix_or_suffix_of_suffix h1 h2 with h | h
    · exact absurd (List.isSuffixOf_iff_suffix.mpr h) (by decide)
    · exact absurd (List.isSuffixOf_iff_suffix.mpr h) (by decide)

theorem deleteMatch_gz_false (table x : FName) :
    deleteMatch table (x ++ ".gz".toList) = false := by
  unfold deleteMatch
  rw [parquet_not_suffix_gz]
  rfl

theorem consolidateTable_compress_fail (env : FEnv) (folder : FName)
    (tmpl : Template) (table : FName) (st : FState)
    (hm : env.mergeFails
      ((selectedInputs table st.files).map (fun n => pjoin folder n)) = none)
    (hc : env.runExit (commandToCompress (pjoin folder (tmpl.fill table))) ≠ 0) :
    consolidateTable env folder tmpl table st
      = (⟨insertFile (tmpl.fill table) st.files,
          st.log ++ [compressFailMsg (pjoin folder (tmpl.fill table))]⟩,
         some PyErr.bare) := by
  unfold consolidateTable run_command
  simp only [hm, if_neg hc]

theorem consolidateTable_all_ok (env : FEnv) (folder : FName)
    (tmpl : Template) (table : FName) (st : FState)
    (hm : env.mergeFails
      ((selectedInputs table st.files).map (fun n => pjoin folder n)) = none)
    (hc : env.runExit (commandToCompress (pjoin folder (tmpl.fill table))) = 0)
    (hd : env.runExit (commandToDelete folder table) = 0) :
    consolidateTable env folder tmpl table st
      = (⟨(gzipEffect (tmpl.fill table) (insertFile (tmpl.fill table) st.files)).filter
            (fun n => !(deleteMatch table n)),
          st.log⟩,
         none) := by
  unfold consolidateTable run_command
  simp only [hm, if_pos hc, if_pos hd]

theorem upload_files_putAttempts (env : SftpEnv) (folder n : FName) :
    (upload_files env folder n).putAttempts
      = if env.isFile (pjoin folder n) then [pjoin folder n] else [] := by
  unfold upload_files
  cases hf : env.isFile (pjoin folder n)
  · simp [hf]
  · cases hr : env.putRaises (pjoin folder n) <;> simp [hf, hr]

/- Claim theorems. -/

/-- C1: Consolidator compression-failure atomicity. When the merge step
succeeded but the external compression command exits non-zero for a table,
consolidation of that table raises a bare Exception and every file present
in the working directory beforehand — in particular every input file of
that table — is still present afterward: the deletion step is never
reached, so re-running consolidation for that table is safe. -/
theorem C1_compression_failure_preserves_inputs (env : FEnv) (folder : FName)
    (tmpl : Template) (table : FName) (st : FState)
    (hm : env.mergeFails
      ((selectedInputs table st.files).map (fun n => pjoin folder n)) = none)
    (hc : env.runExit (commandToCompress (pjoin folder (tmpl.fill table))) ≠ 0) :
    (consolidateTable env folder tmpl table st).2 = some PyErr.bare ∧
    ∀ n ∈ st.files, n ∈ (consolidateTable env folder tmpl table st).1.files := by
  rw [consolidateTable_compress_fail env folder tmpl table st hm hc]
  exact ⟨rfl, fun n hn => mem_insertFile _ hn⟩

/-- C1 witness: a concrete table with one parquet input, a merge that
succeeds and a compression command exiting 1. -/
theorem C1_compression_failure_preserves_inputs_witness :
    (FEnv.mk (fun _ => none) (fun _ => 1)).mergeFails
        ((selectedInputs "tbl".toList
            (FState.mk ["a_tbl_1.parquet".toList] []).files).map
          (fun n => pjoin "d".toList n)) = none ∧
    (FEnv.mk (fun _ => none) (fun _ => 1)).runExit
        (commandToCompress (pjoin "d".toList
          ((Template.mk "out_".toList ".csv".toList).fill "tbl".toList))) ≠ 0 ∧
    ((consolidateTable (FEnv.mk (fun _ => none) (fun _ => 1)) "d".toList
        (Template.mk "out_".toList ".csv".toList) "tbl".toList
        (FState.mk ["a_tbl_1.parquet".toList] [])).2 = some PyErr.bare ∧
      ∀ n ∈ (FState.mk ["a_tbl_1.parquet".toList] []).files,
        n ∈ (consolidateTable (FEnv.mk (fun _ => none) (fun _ => 1)) "d".toList
          (Template.mk "out_".toList ".csv".toList) "tbl".toList
          (FState.mk ["a_tbl_1.parquet".toList] [])).1.files) :=
  ⟨rfl, by decide,
   C1_compression_failure_preserves_inputs _ _ _ _ _ rfl (by decide)⟩

/-- C3 counterexample: the file tbl_data is selected as an input for table
tbl (it contains the table name and no ".csv"), compression succeeds, yet
the file survives consolidation because the deletion command only removes
names matching the shell pattern star tbl star dot parquet. -/
theorem C3_counterexample :
    "tbl_data".toList ∈ selectedInputs "tbl".toList ["tbl_data".toList] ∧
    (consolidateTable (FEnv.mk (fun _ => none) (fun _ => 0)) "d".toList
        (Template.mk "out_".toList ".csv".toList) "tbl".toList
        (FState.mk ["tbl_data".toList] [])).2 = none ∧
    "tbl_data".toList ∈ (consolidateTable (FEnv.mk (fun _ => none) (fun _ => 0))
        "d".toList (Template.mk "out_".toList ".csv".toList) "tbl".toList
        (FState.mk ["tbl_data".toList] [])).1.files := by
  decide

/-- C3 (amended): for a table whose merge, compression and deletion
commands all succeed, the deletion step removes exactly the files whose
name matches the shell pattern star table_name star dot parquet; every
other pre-existing file — in particular a selected input file whose name
does not end in ".parquet" after an occurrence of the table name — remains
in the working directory (the consolidated output name itself is replaced
by its .gz sibling). -/
theorem C3_deletion_removes_glob_matches (env : FEnv) (folder : FName)
    (tmpl : Template) (table : FName) (st : FState)
    (hm : env.mergeFails
      ((selectedInputs table st.files).map (fun n => pjoin folder n)) = none)
    (hc : env.runExit (commandToCompress (pjoin folder (tmpl.fill table))) = 0)
    (hd : env.runExit (commandToDelete folder table) = 0) :
    (consolidateTable env folder tmpl table st).2 = none ∧
    (∀ n ∈ st.files, deleteMatch table n = true →
      n ∉ (consolidateTable env folder tmpl table st).1.files) ∧
    (∀ n ∈ st.files, deleteMatch table n = false → n ≠ tmpl.fill table →
      n ∈ (consolidateTable env folder tmpl table st).1.files) := by
  rw [consolidateTable_all_ok env folder tmpl table st hm hc hd]
  refine ⟨rfl, ?_, ?_⟩
  · intro n hn hdm hmem
    have hpred := (List.mem_filter.mp hmem).2
    simp [hdm] at hpred
  · intro n hn hdm hne
    exact List.mem_filter.mpr
      ⟨mem_gzipEffect hne (mem_insertFile _ hn), by simp [hdm]⟩

/-- C3 witness: the matching parquet input is deleted while the
non-parquet input survives. -/
theorem C3_deletion_removes_glob_matches_witness :
    (FEnv.mk (fun _ => none) (fun _ => 0)).mergeFails
        ((selectedInputs "tbl".toList
            (FState.mk ["a_tbl_1.parquet".toList, "tbl_data".toList] []).files).map
          (fun n => pjoin "d".toList n)) = none ∧
    (FEnv.mk (fun _ => none) (fun _ => 0)).runExit
        (commandToCompress (pjoin "d".toList
          ((Template.mk "out_".toList ".csv".toList).fill "tbl".toList))) = 0 ∧
    (FEnv.mk (fun _ => none) (fun _ => 0)).runExit
        (commandToDelete "d".toList "tbl".toList) = 0 ∧
    ((consolidateTable (FEnv.mk (fun _ => none) (fun _ => 0)) "d".toList
        (Template.mk "out_".toList ".csv".toList) "tbl".toList
        (FState.mk ["a_tbl_1.parquet".toList, "tbl_data".toList] [])).2 = none ∧
      (∀ n ∈ (FState.mk ["a_tbl_1.parquet".toList, "tbl_data".toList] []).files,
        deleteMatch "tbl".toList n = true →
        n ∉ (consolidateTable (FEnv.mk (fun _ => none) (fun _ => 0)) "d".toList
          (Template.mk "out_".toList ".csv".toList) "tbl".toList
          (FState.mk ["a_tbl_1.parquet".toList, "tbl_data".toList] [])).1.files) ∧
      (∀ n ∈ (FState.mk ["a_tbl_1.parquet".toList, "tbl_data".toList] []).files,
        deleteMatch "tbl".toList n = false → n ≠ (Template.mk "out_".toList ".csv".toList).fill "tbl".toList →
        n ∈ (consolidateTable (FEnv.mk (fun _ => none) (fun _ => 0)) "d".toList
          (Template.mk "out_".toList ".csv".toList) "tbl".toList
          (FState.mk ["a_tbl_1.parquet".toList, "tbl_data".toList] [])).1.files)) :=
  ⟨rfl, rfl, rfl,
   C3_deletion_removes_glob_matches _ _ _ _ _ rfl rfl rfl⟩

/-- C4 counterexample: for table tbl and the single directory entry
tbl.csv2, the source predicate rejects the file (".csv" occurs as a
substring) while the claimed ends-in predicate selects it (the name ends
in neither ".csv" nor ".csv.gz"). -/
theorem C4_counterexample :
    selectedInputs "tbl".toList ["tbl.csv2".toList]
      ≠ ["tbl.csv2".toList].filter
          (fun n => specSelectsInput "tbl".toList n) := by
  decide

/-- C4 (amended): the set of files selected for merging is exactly those
directory entries whose name contains table_name and does not CONTAIN
".csv" anywhere in the name (substring test, not suffix test; containing
".csv" also covers every name containing ".csv.gz"). -/
theorem C4_selection_predicate_amended (table : FName) (files : List FName) :
    selectedInputs table files
      = files.filter (fun n => amendedSelectsInput table n) := by
  unfold selectedInputs
  exact List.filter_congr (fun n _ => selectsInput_eq_amended table n)

/-- C4 witness: the amended predicate evaluated on a concrete listing. -/
theorem C4_selection_predicate_amended_witness :
    selectedInputs "tbl".toList
        ["a_tbl_1.parquet".toList, "tbl.csv2".toList, "out_tbl.csv.gz".toList]
      = ["a_tbl_1.parquet".toList, "tbl.csv2".toList, "out_tbl.csv.gz".toList].filter
          (fun n => amendedSelectsInput "tbl".toList n) :=
  C4_selection_predicate_amended "tbl".toList
    ["a_tbl_1.parquet".toList, "tbl.csv2".toList, "out_tbl.csv.gz".toList]

/-- C7 counterexample: with a successful merge and a compression command
exiting 1, the raised object is the bare Exception, whose stringified text
is empty and in particular does not contain the table name — it is not a
ConsolidationError carrying table_name and the underlying message. -/
theorem C7_counterexample :
    (consolidateTable (FEnv.mk (fun _ => none) (fun _ => 1)) "d".toList
        (Template.mk "out_".toList ".csv".toList) "tbl".toList
        (FState.mk ["a_tbl_1.parquet".toList] [])).2 = some PyErr.bare ∧
    errText PyErr.bare = [] ∧
    isSubstr "tbl".toList (errText PyErr.bare) = false := by
  decide

/-- C7 (amended): when the compression command exits non-zero the
consolidation of that table raises a bare Exception carrying no message at
all; the diagnostic text naming the compressed csv path is only written to
the log, and this bare exception is what propagates to the caller. -/
theorem C7_compression_failure_error_content (env : FEnv) (folder : FName)
    (tmpl : Template) (table : FName) (st : FState)
    (hm : env.mergeFails
      ((selectedInputs table st.files).map (fun n => pjoin folder n)) = none)
    (hc : env.runExit (commandToCompress (pjoin folder (tmpl.fill table))) ≠ 0) :
    (consolidateTable env folder tmpl table st).2 = some PyErr.bare ∧
    errText PyErr.bare = [] ∧
    (consolidateTable env folder tmpl table st).1.log
      = st.log ++ [compressFailMsg (pjoin folder (tmpl.fill table))] := by
  rw [consolidateTable_compress_fail env folder tmpl table st hm hc]
  exact ⟨rfl, rfl, rfl⟩

/-- C7 witness at a concrete failing compression. -/
theorem C7_compression_failure_error_content_witness :
    (FEnv.mk (fun _ => none) (fun _ => 1)).mergeFails
        ((selectedInputs "tbl".toList
            (FState.mk ["a_tbl_1.parquet".toList] []).files).map
          (fun n => pjoin "d".toList n)) = none ∧
    (FEnv.mk (fun _ => none) (fun _ => 1)).runExit
        (commandToCompress (pjoin "d".toList
          ((Template.mk "out_".toList ".csv".toList).fill "tbl".toList))) ≠ 0 ∧
    ((consolidateTable (FEnv.mk (fun _ => none) (fun _ => 1)) "d".toList
        (Template.mk "out_".toList ".csv".toList) "tbl".toList
        (FState.mk ["a_tbl_1.parquet".toList] [])).2 = some PyErr.bare ∧
      errText PyErr.bare = [] ∧
      (consolidateTable (FEnv.mk (fun _ => none) (fun _ => 1)) "d".toList
        (Template.mk "out_".toList ".csv".toList) "tbl".toList
        (FState.mk ["a_tbl_1.parquet".toList] [])).1.log
        = (FState.mk ["a_tbl_1.parquet".toList] ([] : List FName)).log
            ++ [compressFailMsg (pjoin "d".toList
                ((Template.mk "out_".toList ".csv".toList).fill "tbl".toList))]) :=
  ⟨rfl, by decide,
   C7_compression_failure_error_content _ _ _ _ _ rfl (by decide)⟩

/-- C8 counterexample: for table tbl and an empty working directory (so
the selection is empty) with a merge of the empty source list that
succeeds and successful commands, consolidation completes without error
but the directory is no longer in its initial state: the compressed
artifact out_tbl.csv.gz has been created, so the run is not a no-op. -/
theorem C8_counterexample :
    selectedInputs "tbl".toList ([] : List FName) = [] ∧
    (consolidateTable (FEnv.mk (fun _ => none) (fun _ => 0)) "d".toList
        (Template.mk "out_".toList ".csv".toList) "tbl".toList
        (FState.mk [] [])).2 = none ∧
    (consolidateTable (FEnv.mk (fun _ => none) (fun _ => 0)) "d".toList
        (Template.mk "out_".toList ".csv".toList) "tbl".toList
        (FState.mk [] [])).1.files ≠ ([] : List FName) := by
  decide

/-- C8 (amended): for a table_name with an empty input selection,
consolidation still runs the merge and the compression on the empty input
set; when the empty merge and the commands succeed it completes without
raising, but it is not a no-op: the compressed artifact for that table is
created in the working directory. -/
theorem C8_absent_table_not_noop (env : FEnv) (folder : FName)
    (tmpl : Template) (table : FName) (st : FState)
    (hsel : selectedInputs table st.files = [])
    (hm : env.mergeFails [] = none)
    (hc : env.runExit (commandToCompress (pjoin folder (tmpl.fill table))) = 0)
    (hd : env.runExit (commandToDelete folder table) = 0) :
    (consolidateTable env folder tmpl table st).2 = none ∧
    (tmpl.fill table ++ ".gz".toList)
      ∈ (consolidateTable env folder tmpl table st).1.files := by
  have hm2 : env.mergeFails
      ((selectedInputs table st.files).map (fun n => pjoin folder n)) = none := by
    rw [hsel]
    exact hm
  rw [consolidateTable_all_ok env folder tmpl table st hm2 hc hd]
  refine ⟨rfl, List.mem_filter.mpr ⟨?_, ?_⟩⟩
  · unfold gzipEffect
    exact List.mem_append_right _ (List.mem_singleton.mpr rfl)
  · simp only [deleteMatch_gz_false, Bool.not_false]

/-- C8 witness: empty directory, all collaborators succeed. -/
theorem C8_absent_table_not_noop_witness :
    selectedInputs "tbl".toList (FState.mk [] ([] : List FName)).files = [] ∧
    (FEnv.mk (fun _ => none) (fun _ => 0)).mergeFails [] = none ∧
    (FEnv.mk (fun _ => none) (fun _ => 0)).runExit
        (commandToCompress (pjoin "d".toList
          ((Template.mk "out_".toList ".csv".toList).fill "tbl".toList))) = 0 ∧
    (FEnv.mk (fun _ => none) (fun _ => 0)).runExit
        (commandToDelete "d".toList "tbl".toList) = 0 ∧
    ((consolidateTable (FEnv.mk (fun _ => none) (fun _ => 0)) "d".toList
        (Template.mk "out_".toList ".csv".toList) "tbl".toList
        (FState.mk [] [])).2 = none ∧
      ((Template.mk "out_".toList ".csv".toList).fill "tbl".toList ++ ".gz".toList)
        ∈ (consolidateTable (FEnv.mk (fun _ => none) (fun _ => 0)) "d".toList
            (Template.mk "out_".toList ".csv".toList) "tbl".toList
            (FState.mk [] [])).1.files) :=
  ⟨rfl, rfl, rfl, rfl,
   C8_absent_table_not_noop _ _ _ _ _ rfl rfl rfl rfl⟩

/-- C2 counterexample: with a query that fails with message boom and an
insert_rows_json call that itself raises with message sinkdown, the error
the caller observes is the insertion failure, not the original query
failure, and the handler log records only the query error — nothing about
the failed insertion. -/
theorem C2_counterexample :
    (execute_query_log_errs
        (BqEnv.mk (fun _ => Except.error "boom".toList)
          (fun _ => some "sinkdown".toList) 5)
        "q".toList [("job".toList, Val.str "x".toList)]
        "err".toList "ts".toList (BqState.mk [] [])).raised
      = some (Raised.insertErr "sinkdown".toList) ∧
    some (Raised.insertErr "sinkdown".toList)
      ≠ some (Raised.queryErr "boom".toList) ∧
    (execute_query_log_errs
        (BqEnv.mk (fun _ => Except.error "boom".toList)
          (fun _ => some "sinkdown".toList) 5)
        "q".toList [("job".toList, Val.str "x".toList)]
        "err".toList "ts".toList (BqState.mk [] [])).state.log
      = [execErrMsg "q".toList "boom".toList] := by
  decide

/-- C2 (amended): after a query failure the augmented record is appended
to the log table only when insert_rows_json does not raise, and in that
case the original query failure is re-raised; when the insertion itself
raises, the insertion error propagates to the caller in place of the
original query failure, no row is appended, and the insertion failure is
not logged (the log holds only the query-error entry). -/
theorem C2_sink_failure_propagates (env : BqEnv) (sql : FName) (extra : Dict)
    (colErr colTime : FName) (st : BqState) (e : FName)
    (hq : env.query sql = Except.error e) :
    (env.insertRaises (dictSet (dictSet extra colErr (Val.str e)) colTime
        (Val.time env.now)) = none →
      (execute_query_log_errs env sql extra colErr colTime st).raised
          = some (Raised.queryErr e) ∧
      (execute_query_log_errs env sql extra colErr colTime st).state.sinkRows
          = st.sinkRows ++ [dictSet (dictSet extra colErr (Val.str e)) colTime
              (Val.time env.now)]) ∧
    (∀ ie, env.insertRaises (dictSet (dictSet extra colErr (Val.str e)) colTime
        (Val.time env.now)) = some ie →
      (execute_query_log_errs env sql extra colErr colTime st).raised
          = some (Raised.insertErr ie) ∧
      (execute_query_log_errs env sql extra colErr colTime st).state.sinkRows
          = st.sinkRows ∧
      (execute_query_log_errs env sql extra colErr colTime st).state.log
          = st.log ++ [execErrMsg sql e]) := by
  unfold execute_query_log_errs execute_query
  simp only [hq]
  constructor
  · intro h
    simp [h]
  · intro ie h
    simp [h]

/-- C2 witness: a failing query with an insertion that raises. -/
theorem C2_sink_failure_propagates_witness :
    (BqEnv.mk (fun _ => Except.error "boom".toList)
        (fun _ => some "sinkdown".toList) 5).query "q".toList
      = Except.error "boom".toList ∧
    (((BqEnv.mk (fun _ => Except.error "boom".toList)
        (fun _ => some "sinkdown".toList) 5).insertRaises
        (dictSet (dictSet [("job".toList, Val.str "x".toList)] "err".toList
          (Val.str "boom".toList)) "ts".toList
            (Val.time (BqEnv.mk (fun _ => Except.error "boom".toList)
              (fun _ => some "sinkdown".toList) 5).now)) = none →
      (execute_query_log_errs (BqEnv.mk (fun _ => Except.error "boom".toList)
          (fun _ => some "sinkdown".toList) 5) "q".toList
          [("job".toList, Val.str "x".toList)] "err".toList "ts".toList
          (BqState.mk [] [])).raised
        = some (Raised.queryErr "boom".toList) ∧
      (execute_query_log_errs (BqEnv.mk (fun _ => Except.error "boom".toList)
          (fun _ => some "sinkdown".toList) 5) "q".toList
          [("job".toList, Val.str "x".toList)] "err".toList "ts".toList
          (BqState.mk [] [])).state.sinkRows
        = (BqState.mk [] ([] : List Dict)).sinkRows
            ++ [dictSet (dictSet [("job".toList, Val.str "x".toList)]
                "err".toList (Val.str "boom".toList)) "ts".toList
                  (Val.time (BqEnv.mk (fun _ => Except.error "boom".toList)
                    (fun _ => some "sinkdown".toList) 5).now)]) ∧
    (∀ ie, (BqEnv.mk (fun _ => Except.error "boom".toList)
        (fun _ => some "sinkdown".toList) 5).insertRaises
        (dictSet (dictSet [("job".toList, Val.str "x".toList)] "err".toList
          (Val.str "boom".toList)) "ts".toList
            (Val.time (BqEnv.mk (fun _ => Except.error "boom".toList)
              (fun _ => some "sinkdown".toList) 5).now)) = some ie →
      (execute_query_log_errs (BqEnv.mk (fun _ => Except.error "boom".toList)
          (fun _ => some "sinkdown".toList) 5) "q".toList
          [("job".toList, Val.str "x".toList)] "err".toList "ts".toList
          (BqState.mk [] [])).raised
        = some (Raised.insertErr ie) ∧
      (execute_query_log_errs (BqEnv.mk (fun _ => Except.error "boom".toList)
          (fun _ => some "sinkdown".toList) 5) "q".toList
          [("job".toList, Val.str "x".toList)] "err".toList "ts".toList
          (BqState.mk [] [])).state.sinkRows
        = (BqState.mk [] ([] : List Dict)).sinkRows ∧
      (execute_query_log_errs (BqEnv.mk (fun _ => Except.error "boom".toList)
          (fun _ => some "sinkdown".toList) 5) "q".toList
          [("job".toList, Val.str "x".toList)] "err".toList "ts".toList
          (BqState.mk [] [])).state.log
        = (BqState.mk ([] : List FName) ([] : List Dict)).log
            ++ [execErrMsg "q".toList "boom".toList])) :=
  ⟨rfl, C2_sink_failure_propagates _ _ _ _ _ _ _ rfl⟩

/-- C5: ExportFanOut partial-failure isolation and wait-all. Even when one
table b always fails to export, the completed-task record of
load_to_gcs_in_parallel still contains, for every table in the batch, its
own completed export_table_to_storage outcome with the destination uri
built from the template, and the recorded tables are exactly the input
list — the call returns only after every launched task has completed. -/
theorem C5_export_fanout_isolation (env : ExpEnv) (tables : List FName)
    (uriTmpl : Template) (proj ds b m : FName)
    (_hb : env.extract proj ds b (uriTmpl.fill b) = Except.error m) :
    ((load_to_gcs_in_parallel env tables uriTmpl proj ds).map
        TaskRecord.table = tables) ∧
    ∀ t ∈ tables,
      (TaskRecord.mk t (uriTmpl.fill t)
        (export_table_to_storage env proj ds t (uriTmpl.fill t) []).2)
        ∈ load_to_gcs_in_parallel env tables uriTmpl proj ds := by
  constructor
  · unfold load_to_gcs_in_parallel
    rw [List.map_map]
    exact List.map_id' tables
  · intro t ht
    exact List.mem_map_of_mem _ ht

/-- C5 witness: tables A, B, C where only the export of B fails; A and C
still complete successfully. -/
theorem C5_export_fanout_isolation_witness :
    (ExpEnv.mk (fun _ _ t _ =>
        if t = "B".toList then Except.error "x".toList else Except.ok 7)).extract
        "p".toList "d".toList "B".toList
        ((Template.mk "gs://b/".toList ".csv".toList).fill "B".toList)
      = Except.error "x".toList ∧
    (((load_to_gcs_in_parallel
        (ExpEnv.mk (fun _ _ t _ =>
          if t = "B".toList then Except.error "x".toList else Except.ok 7))
        ["A".toList, "B".toList, "C".toList]
        (Template.mk "gs://b/".toList ".csv".toList)
        "p".toList "d".toList).map TaskRecord.table
        = ["A".toList, "B".toList, "C".toList]) ∧
      ∀ t ∈ ["A".toList, "B".toList, "C".toList],
        (TaskRecord.mk t ((Template.mk "gs://b/".toList ".csv".toList).fill t)
          (export_table_to_storage
            (ExpEnv.mk (fun _ _ t _ =>
              if t = "B".toList then Except.error "x".toList else Except.ok 7))
            "p".toList "d".toList t
            ((Template.mk "gs://b/".toList ".csv".toList).fill t) []).2)
          ∈ load_to_gcs_in_parallel
              (ExpEnv.mk (fun _ _ t _ =>
                if t = "B".toList then Except.error "x".toList else Except.ok 7))
              ["A".toList, "B".toList, "C".toList]
              (Template.mk "gs://b/".toList ".csv".toList)
              "p".toList "d".toList) :=
  ⟨by decide,
   C5_export_fanout_isolation _ _ _ _ _ "B".toList "x".toList (by decide)⟩

/-- C6 counterexample: with a query that succeeds with result 42, the
Python return value of execute_query_log_errs is None rather than the
query result — the result is discarded, contradicting the claimed
contract that the result is returned untouched. -/
theorem C6_counterexample :
    (BqEnv.mk (fun _ => Except.ok 42) (fun _ => none) 0).query "q".toList
      = Except.ok 42 ∧
    (execute_query_log_errs (BqEnv.mk (fun _ => Except.ok 42) (fun _ => none) 0)
        "q".toList [("job".toList, Val.str "x".toList)]
        "err".toList "ts".toList (BqState.mk [] [])).ret
      ≠ some 42 := by
  decide

/-- C6 (amended): for every query whose execution succeeds,
execute_query_log_errs performs no interaction with the error-sink table
(no row inserted, no record augmented, nothing logged, nothing raised) but
returns None — the query result is discarded, not returned. -/
theorem C6_success_no_sink_returns_none (env : BqEnv) (sql : FName)
    (extra : Dict) (colErr colTime : FName) (st : BqState) (r : Nat)
    (hq : env.query sql = Except.ok r) :
    execute_query_log_errs env sql extra colErr colTime st
      = LogErrsResult.mk st extra none none := by
  unfold execute_query_log_errs execute_query
  simp only [hq]

/-- C6 witness: concrete successful query. -/
theorem C6_success_no_sink_returns_none_witness :
    (BqEnv.mk (fun _ => Except.ok 42) (fun _ => none) 0).query "q".toList
      = Except.ok 42 ∧
    execute_query_log_errs (BqEnv.mk (fun _ => Except.ok 42) (fun _ => none) 0)
        "q".toList [("job".toList, Val.str "x".toList)]
        "err".toList "ts".toList (BqState.mk [] [])
      = LogErrsResult.mk (BqState.mk [] [])
          [("job".toList, Val.str "x".toList)] none none :=
  ⟨rfl, C6_success_no_sink_returns_none _ _ _ _ _ _ 42 rfl⟩

/-- C9: UploadFanOut directory skipping. Over any listing, the paths
handed to conn.put across the whole fan-out are exactly as many as the
entries for which os.path.isfile holds, every attempted path is a regular
file, and a non-file entry produces no put attempt, no log line and no
error — it is silently skipped. -/
theorem C9_upload_skips_directories (env : SftpEnv) (folder : FName)
    (listing : List FName) :
    (((upload_all_files_in_parallel env folder listing).map
        UploadOutcome.putAttempts).flatten).length
      = (listing.filter (fun n => env.isFile (pjoin folder n))).length ∧
    (∀ p ∈ ((upload_all_files_in_parallel env folder listing).map
        UploadOutcome.putAttempts).flatten, env.isFile p = true) ∧
    (∀ n ∈ listing, env.isFile (pjoin folder n) = false →
      upload_files env folder n = UploadOutcome.mk [] [] none) := by
  refine ⟨?_, ?_, ?_⟩
  · induction listing with
    | nil => rfl
    | cons n rest ih =>
        simp only [upload_all_files_in_parallel] at ih ⊢
        rw [List.map_cons, List.map_cons, List.flatten_cons,
          List.length_append, upload_files_putAttempts, ih, List.filter_cons]
        cases hf : env.isFile (pjoin folder n)
        · simp [hf]
        · simp [hf, Nat.add_comm]
  · intro p hp
    rcases List.mem_flatten.mp hp with ⟨s, hs, hps⟩
    rcases List.mem_map.mp hs with ⟨out, hout, rfl⟩
    rcases List.mem_map.mp hout with ⟨n, hn, rfl⟩
    rw [upload_files_putAttempts] at hps
    by_cases hf : env.isFile (pjoin folder n) = true
    · rw [if_pos hf] at hps
      rw [List.mem_singleton.mp hps]
      exact hf
    · rw [if_neg hf] at hps
      exact absurd hps (List.not_mem_nil p)
  · intro n hn hf
    unfold upload_files
    rw [if_neg (by simp [hf])]

/-- C9 witness: a listing with two regular files and one directory. -/
theorem C9_upload_skips_directories_witness :
    (((upload_all_files_in_parallel
        (SftpEnv.mk (fun p => decide (p ≠ pjoin "d".toList "sub".toList))
          (fun _ => none)) "d".toList
        ["a.csv.gz".toList, "sub".toList, "b.csv.gz".toList]).map
        UploadOutcome.putAttempts).flatten).length
      = (["a.csv.gz".toList, "sub".toList, "b.csv.gz".toList].filter
          (fun n => (SftpEnv.mk
            (fun p => decide (p ≠ pjoin "d".toList "sub".toList))
            (fun _ => none)).isFile (pjoin "d".toList n))).length ∧
    (∀ p ∈ ((upload_all_files_in_parallel
        (SftpEnv.mk (fun p => decide (p ≠ pjoin "d".toList "sub".toList))
          (fun _ => none)) "d".toList
        ["a.csv.gz".toList, "sub".toList, "b.csv.gz".toList]).map
        UploadOutcome.putAttempts).flatten,
      (SftpEnv.mk (fun p => decide (p ≠ pjoin "d".toList "sub".toList))
        (fun _ => none)).isFile p = true) ∧
    (∀ n ∈ ["a.csv.gz".toList, "sub".toList, "b.csv.gz".toList],
      (SftpEnv.mk (fun p => decide (p ≠ pjoin "d".toList "sub".toList))
        (fun _ => none)).isFile (pjoin "d".toList n) = false →
      upload_files (SftpEnv.mk
        (fun p => decide (p ≠ pjoin "d".toList "sub".toList))
        (fun _ => none)) "d".toList n = UploadOutcome.mk [] [] none) :=
  C9_upload_skips_directories _ _ _

/-- C10: in-place mutation of the caller record. When colErr and colTime
are distinct keys, a failing query leaves the caller-visible
extra_columns_to_insert mapping holding the stringified error under
colErr and the captured time under colTime (whether or not the insertion
raised, since the mutation precedes it), while a successful query leaves
the mapping unchanged. -/
theorem C10_record_template_mutated_in_place (env : BqEnv) (sql : FName)
    (extra : Dict) (colErr colTime : FName) (st : BqState)
    (hne : colErr ≠ colTime) :
    (∀ e, env.query sql = Except.error e →
      dictGet (execute_query_log_errs env sql extra colErr colTime st).extra
          colErr = some (Val.str e) ∧
      dictGet (execute_query_log_errs env sql extra colErr colTime st).extra
          colTime = some (Val.time env.now)) ∧
    (∀ r, env.query sql = Except.ok r →
      (execute_query_log_errs env sql extra colErr colTime st).extra
        = extra) := by
  constructor
  · intro e hq
    have hx : (execute_query_log_errs env sql extra colErr colTime st).extra
        = dictSet (dictSet extra colErr (Val.str e)) colTime
            (Val.time env.now) := by
      unfold execute_query_log_errs execute_query
      simp only [hq]
      cases h2 : env.insertRaises (dictSet (dictSet extra colErr (Val.str e))
          colTime (Val.time env.now)) with
      | none => simp only [h2]
      | some ie => simp only [h2]
    rw [hx]
    constructor
    · rw [dictGet_dictSet_other _ colTime colErr _ hne]
      exact dictGet_dictSet_same extra colErr (Val.str e)
    · exact dictGet_dictSet_same _ colTime (Val.time env.now)
  · intro r hq
    unfold execute_query_log_errs execute_query
    simp only [hq]

/-- C10 witness: distinct column names, failing query. -/
theorem C10_record_template_mutated_in_place_witness :
    "err".toList ≠ "ts".toList ∧
    ((∀ e, (BqEnv.mk (fun _ => Except.error "boom".toList) (fun _ => none) 5).query
          "q".toList = Except.error e →
      dictGet (execute_query_log_errs
          (BqEnv.mk (fun _ => Except.error "boom".toList) (fun _ => none) 5)
          "q".toList [("job".toList, Val.str "x".toList)]
          "err".toList "ts".toList (BqState.mk [] [])).extra
          "err".toList = some (Val.str e) ∧
      dictGet (execute_query_log_errs
          (BqEnv.mk (fun _ => Except.error "boom".toList) (fun _ => none) 5)
          "q".toList [("job".toList, Val.str "x".toList)]
          "err".toList "ts".toList (BqState.mk [] [])).extra
          "ts".toList = some (Val.time
            (BqEnv.mk (fun _ => Except.error "boom".toList) (fun _ => none) 5).now)) ∧
    (∀ r, (BqEnv.mk (fun _ => Except.error "boom".toList) (fun _ => none) 5).query
          "q".toList = Except.ok r →
      (execute_query_log_errs
          (BqEnv.mk (fun _ => Except.error "boom".toList) (fun _ => none) 5)
          "q".toList [("job".toList, Val.str "x".toList)]
          "err".toList "ts".toList (BqState.mk [] [])).extra
        = [("job".toList, Val.str "x".toList)])) :=
  ⟨by decide, C10_record_template_mutated_in_place _ _ _ _ _ _ (by decide)⟩

end LibBi
